import Mathlib

/-!
Verification of the core logic of the mega repository (src/js/script.js):
the department directory cache (ApiService.fetchDepartments), the dashboard
search filter (Dashboard.handleSearch), the login form field validator
(LoginManager.validateField) and the mock login exchange (ApiService.loginUser).

The JavaScript is shallowly embedded: browser local storage becomes an explicit
Store value threaded through the operations, Date.now() becomes an explicit
integer parameter, and the simulated fetch step (which in the shipped code
always yields MOCK_DEPARTMENTS but whose failure is handled by a catch block)
becomes an Except parameter. JavaScript string operations (trim, toLowerCase,
includes, length) are modelled character-by-character over the underlying
character list, with ASCII case mapping.
-/

/-- Model of the JavaScript String.prototype.toLowerCase (ASCII case mapping,
applied character by character). -/
def jsToLower (s : String) : String := ⟨s.data.map Char.toLower⟩

/-- Removes leading and trailing whitespace characters from a character list;
the character-list core of the JavaScript String.prototype.trim. -/
def trimList (l : List Char) : List Char :=
  ((l.dropWhile Char.isWhitespace).reverse.dropWhile Char.isWhitespace).reverse

/-- Model of the JavaScript String.prototype.trim. -/
def jsTrim (s : String) : String := ⟨trimList s.data⟩

/-- Substring test on character lists: does pat occur contiguously in hay?
Core of the JavaScript String.prototype.includes. -/
def strContains : List Char → List Char → Bool
  | [], pat => pat.isEmpty
  | c :: t, pat => List.isPrefixOf pat (c :: t) || strContains t pat

/-- Model of the JavaScript hay.includes(pat). -/
def jsIncludes (hay pat : String) : Bool := strContains hay.data pat.data

/-- A department record, as in the MOCK_DEPARTMENTS objects of script.js. -/
structure DepartmentRecord where
  id : String
  name : String
  description : String
  icon : String
  color : String
  employees : Nat
  active : Bool
  deriving Repr, DecidableEq

/-- The MOCK_DEPARTMENTS constant of script.js, transcribed field by field. -/
def MOCK_DEPARTMENTS : List DepartmentRecord :=
  [⟨"hr", "Human Resources",
    "Manage employee relations, recruitment, and workforce development",
    "fas fa-users", "#667eea", 25, true⟩,
   ⟨"finance", "Finance",
    "Financial planning, budgeting, and accounting operations",
    "fas fa-chart-line", "#f093fb", 18, true⟩,
   ⟨"it", "Information Technology",
    "Technology infrastructure, development, and support services",
    "fas fa-laptop-code", "#4facfe", 32, true⟩,
   ⟨"security", "Security",
    "Information security, physical security, and risk management",
    "fas fa-shield-alt", "#43e97b", 15, true⟩,
   ⟨"hse", "HSE",
    "Health, Safety, and Environment management and compliance",
    "fas fa-hard-hat", "#fa709a", 20, true⟩,
   ⟨"customer-service", "Customer Service",
    "Customer support, satisfaction, and relationship management",
    "fas fa-headset", "#4facfe", 35, true⟩,
   ⟨"environment", "Environment",
    "Environmental protection, sustainability, and green initiatives",
    "fas fa-leaf", "#43e97b", 18, true⟩]

/-- The cached departments value stored under CONFIG.STORAGE_KEYS.DEPARTMENTS:
a department list plus its capture timestamp in milliseconds. -/
structure CacheEntry where
  data : List DepartmentRecord
  timestamp : Int
  deriving Repr, DecidableEq

/-- The session user synthesized by ApiService.loginUser. The id and lastLogin
fields both come from the current time (Date.now() and new Date().toISOString()
in the source); both are modelled as the millisecond timestamp. -/
structure SessionUser where
  id : Int
  username : String
  department : String
  name : String
  email : String
  role : String
  permissions : List String
  lastLogin : Int
  deriving Repr, DecidableEq

/-- The remembered-login value stored under CONFIG.STORAGE_KEYS.REMEMBER_ME:
username and department only. -/
structure RememberedLogin where
  username : String
  department : String
  deriving Repr, DecidableEq

/-- The browser local storage, restricted to the three keys the code uses:
megaproject_departments, megaproject_session, megaproject_remember.
A field of none models an absent key. -/
structure Store where
  departments : Option CacheEntry
  session : Option SessionUser
  remember : Option RememberedLogin
  deriving Repr, DecidableEq

/-- A store with none of the three keys present. -/
def emptyStore : Store := ⟨none, none, none⟩

/-- The cache freshness window of fetchDepartments: 5 * 60 * 1000 ms. -/
def cacheTTL : Int := 5 * 60 * 1000

/-- Result shape of ApiService.fetchDepartments: on success
`{success: true, data}`, on failure `{success: false, error, data: []}`. -/
structure DeptResult where
  success : Bool
  data : List DepartmentRecord
  error : Option String
  deriving Repr, DecidableEq

/-- The cache-miss path of fetchDepartments: perform the (simulated) fetch; on
success cache the result under the current timestamp and return it; on failure
(the catch block of the source) return the fixed user-facing error message with
an empty list and leave the store unchanged. -/
def fetchMiss (st : Store) (now : Int) (fetched : Except Unit (List DepartmentRecord)) :
    DeptResult × Store :=
  match fetched with
  | .ok d => (⟨true, d, none⟩, { st with departments := some ⟨d, now⟩ })
  | .error _ =>
    (⟨false, [], some "Unable to load departments. Please try again later."⟩, st)

/-- ApiService.fetchDepartments. Reads the cached entry; if present and its
timestamp satisfies `timestamp > now - 5 * 60 * 1000` the cached list is
returned with no fetch and no store write; otherwise the fetch step runs
(fetchMiss). The fetched parameter stands for the outcome of the simulated
fetch step, which the catch block of the source allows to fail. -/
def fetchDepartments (st : Store) (now : Int)
    (fetched : Except Unit (List DepartmentRecord)) : DeptResult × Store :=
  match st.departments with
  | some e =>
    if e.timestamp > now - cacheTTL then (⟨true, e.data, none⟩, st)
    else fetchMiss st now fetched
  | none => fetchMiss st now fetched

/-- The record a record of the dashboard survives the search with: the query,
lowercased then trimmed, occurs as a substring of the lowercased name,
description, or id. (Lowercasing first and trimming first agree, since case
mapping fixes whitespace.) -/
def surviveB (q : String) (d : DepartmentRecord) : Bool :=
  jsIncludes (jsToLower d.name) (jsTrim (jsToLower q)) ||
  jsIncludes (jsToLower d.description) (jsTrim (jsToLower q)) ||
  jsIncludes (jsToLower d.id) (jsTrim (jsToLower q))

/-- The filtering step of Dashboard.handleSearch: normalize the query with
toLowerCase().trim(); if empty, take a copy of the full list, otherwise keep
the records whose lowercased name, description or id includes the query. -/
def searchFilter (departments : List DepartmentRecord) (query : String) :
    List DepartmentRecord :=
  let q := jsTrim (jsToLower query)
  if q = "" then departments
  else
    departments.filter (fun d =>
      jsIncludes (jsToLower d.name) q ||
      jsIncludes (jsToLower d.description) q ||
      jsIncludes (jsToLower d.id) q)

/-- The three field kinds LoginManager.validateField dispatches on:
field.type of text or password, or the select-one tag of the department
selection. -/
inductive FieldKind where
  | text
  | password
  | selectOne
  deriving Repr, DecidableEq

/-- Outcome of validating one field: the validity flag and the error message
passed to setFieldValidation (empty when valid). -/
structure ValidationResult where
  valid : Bool
  message : String
  deriving Repr, DecidableEq

/-- LoginManager.validateField: the raw field value is trimmed first
(`const value = field.value.trim()` in the source, before the switch, so the
trim applies to every field kind including password), then the per-kind checks
run on the trimmed value. -/
def validateField (kind : FieldKind) (raw : String) : ValidationResult :=
  let value := jsTrim raw
  match kind with
  | .text =>
    if value = "" then ⟨false, "Username is required"⟩
    else if value.length < 3 then ⟨false, "Username must be at least 3 characters"⟩
    else ⟨true, ""⟩
  | .password =>
    if value = "" then ⟨false, "Password is required"⟩
    else if value.length < 6 then ⟨false, "Password must be at least 6 characters"⟩
    else ⟨true, ""⟩
  | .selectOne =>
    if value = "" then ⟨false, "Please select a department"⟩
    else ⟨true, ""⟩

/-- The claimed per-field rules, transcribed from the claim wording: the
text field is checked after trim, but the password field is checked on the raw
value (invalid-required if empty, invalid-too-short if its length is below 6).
This definition follows the claim, not the source; it is compared against
validateField. -/
def validateFieldClaim (kind : FieldKind) (raw : String) : ValidationResult :=
  match kind with
  | .text =>
    if jsTrim raw = "" then ⟨false, "Username is required"⟩
    else if (jsTrim raw).length < 3 then ⟨false, "Username must be at least 3 characters"⟩
    else ⟨true, ""⟩
  | .password =>
    if raw = "" then ⟨false, "Password is required"⟩
    else if raw.length < 6 then ⟨false, "Password must be at least 6 characters"⟩
    else ⟨true, ""⟩
  | .selectOne =>
    if raw = "" then ⟨false, "Please select a department"⟩
    else ⟨true, ""⟩

/-- The credentials object performLogin passes to ApiService.loginUser. -/
structure Credentials where
  username : String
  password : String
  department : String
  rememberMe : Bool
  deriving Repr, DecidableEq

/-- Result shape of ApiService.loginUser: success with data and message, or
failure with an error string and null data. -/
structure LoginResult where
  success : Bool
  data : Option SessionUser
  message : Option String
  error : Option String
  deriving Repr, DecidableEq

/-- The derived display name of the mock login:
username with its first character upper-cased, then a " User" suffix
(charAt(0).toUpperCase() + slice(1) + " User"; empty username gives " User"). -/
def deriveName (u : String) : String :=
  match u.data with
  | [] => " User"
  | c :: cs => String.mk (c.toUpper :: cs) ++ " User"

/-- The SessionUser synthesized on the mock success path of loginUser. -/
def mkSessionUser (creds : Credentials) (now : Int) : SessionUser :=
  ⟨now, creds.username, creds.department, deriveName creds.username,
   creds.username ++ "@megaproject.com", "user", ["read", "write"], now⟩

/-- ApiService.loginUser. The defensive checks run on the raw credential
strings in source order: all three fields non-empty, username length at least
3, password length at least 6; each failed check throws, and the catch block
turns the thrown message into `{success: false, error, data: null}` with no
store write. On success the RememberedLogin entry is written only when
rememberMe is set, and the session entry is written unconditionally. -/
def loginUser (creds : Credentials) (st : Store) (now : Int) : LoginResult × Store :=
  if creds.username = "" ∨ creds.password = "" ∨ creds.department = "" then
    (⟨false, none, none, some "All fields are required"⟩, st)
  else if creds.username.length < 3 then
    (⟨false, none, none, some "Username must be at least 3 characters"⟩, st)
  else if creds.password.length < 6 then
    (⟨false, none, none, some "Password must be at least 6 characters"⟩, st)
  else
    (⟨true, some (mkSessionUser creds now),
      some "Login successful! Redirecting to dashboard...", none⟩,
     ⟨st.departments, some (mkSessionUser creds now),
      if creds.rememberMe then some ⟨creds.username, creds.department⟩
      else st.remember⟩)

/-! Helper lemmas about the string model. -/

theorem strContains_nil (hay : List Char) : strContains hay [] = true := by
  cases hay <;> rfl

theorem jsIncludes_empty (hay : String) : jsIncludes hay "" = true :=
  strContains_nil hay.data

theorem ws_toLower (c : Char) (h : c.isWhitespace = true) : c.toLower = c := by
  simp [Char.isWhitespace] at h
  rcases h with ((h | h) | h) | h <;> (subst h; decide)

theorem all_ws_trimList (l : List Char) (h : ∀ c ∈ l, c.isWhitespace = true) :
    trimList l = [] := by
  unfold trimList
  rw [List.dropWhile_eq_nil_iff.mpr h]
  rfl

theorem trimList_nil_ws (l : List Char) (h : trimList l = []) :
    ∀ c ∈ l, c.isWhitespace = true := by
  unfold trimList at h
  rw [List.reverse_eq_nil_iff, List.dropWhile_eq_nil_iff] at h
  intro c hc
  rw [← List.takeWhile_append_dropWhile Char.isWhitespace l] at hc
  rcases List.mem_append.mp hc with hc | hc
  · exact List.mem_takeWhile_imp hc
  · exact h c (List.mem_reverse.mpr hc)

theorem searchFilter_eq_filter (D : List DepartmentRecord) (q : String) :
    searchFilter D q = D.filter (surviveB q) := by
  by_cases hq : jsTrim (jsToLower q) = ""
  · simp only [searchFilter, hq, if_pos]
    refine (List.filter_eq_self.mpr ?_).symm
    intro d _
    simp [surviveB, hq, jsIncludes_empty]
  · simp only [searchFilter, if_neg hq]
    rfl

/-- Claim C1: fetchDepartments returns the cached department list, with no
store write and independently of the fetch outcome, exactly when a cache entry
exists whose timestamp satisfies now - timestamp < 5 minutes; with a stale
entry (at or after 5 minutes) or no entry, a successful fetch is returned and
overwrites the stored entry with the current timestamp; and a read within 5
minutes of such a write returns the exact list that was written. -/
theorem fetchDepartments_cache_spec (st : Store) (now : Int) (e : CacheEntry)
    (d : List DepartmentRecord) (f : Except Unit (List DepartmentRecord)) (later : Int) :
    (st.departments = some e → now - e.timestamp < cacheTTL →
      fetchDepartments st now f = (⟨true, e.data, none⟩, st)) ∧
    (st.departments = some e → cacheTTL ≤ now - e.timestamp →
      fetchDepartments st now (.ok d) =
        (⟨true, d, none⟩, { st with departments := some ⟨d, now⟩ })) ∧
    (st.departments = none →
      fetchDepartments st now (.ok d) =
        (⟨true, d, none⟩, { st with departments := some ⟨d, now⟩ })) ∧
    (later - now < cacheTTL →
      fetchDepartments { st with departments := some ⟨d, now⟩ } later f =
        (⟨true, d, none⟩, { st with departments := some ⟨d, now⟩ })) := by
  refine ⟨?_, ?_, ?_, ?_⟩
  · intro he hf
    simp only [fetchDepartments, he]
    rw [if_pos (by omega)]
  · intro he hs
    simp only [fetchDepartments, he]
    rw [if_neg (by omega)]
    rfl
  · intro he
    simp only [fetchDepartments, he]
    rfl
  · intro hf
    simp only [fetchDepartments]
    rw [if_pos (by omega)]

/-- Witness for C1: a store cached at time 1000 read at time 2000 returns the
cached list unchanged even when the fetch outcome would be a failure. -/
theorem fetchDepartments_cache_spec_witness :
    fetchDepartments ⟨some ⟨MOCK_DEPARTMENTS, 1000⟩, none, none⟩ 2000 (.error ()) =
      (⟨true, MOCK_DEPARTMENTS, none⟩, ⟨some ⟨MOCK_DEPARTMENTS, 1000⟩, none, none⟩) :=
  (fetchDepartments_cache_spec ⟨some ⟨MOCK_DEPARTMENTS, 1000⟩, none, none⟩ 2000
    ⟨MOCK_DEPARTMENTS, 1000⟩ [] (.error ()) 0).1 rfl (by decide)

/-- Claim C8: when the fetch step fails on a cache miss (no entry, or a stale
entry), fetchDepartments returns an error result with success false, the fixed
user-facing message and an empty list, and leaves the store unchanged; the
failure is returned as a value, not raised, and the fetch is attempted once. -/
theorem fetchDepartments_error_spec (st : Store) (now : Int) (e : CacheEntry) :
    (st.departments = none →
      fetchDepartments st now (.error ()) =
        (⟨false, [], some "Unable to load departments. Please try again later."⟩, st)) ∧
    (st.departments = some e → cacheTTL ≤ now - e.timestamp →
      fetchDepartments st now (.error ()) =
        (⟨false, [], some "Unable to load departments. Please try again later."⟩, st)) := by
  refine ⟨?_, ?_⟩
  · intro he
    simp only [fetchDepartments, he]
    rfl
  · intro he hs
    simp only [fetchDepartments, he]
    rw [if_neg (by omega)]
    rfl

/-- Witness for C8: a failed fetch on an empty store yields the error result
and leaves the store empty. -/
theorem fetchDepartments_error_spec_witness :
    fetchDepartments emptyStore 0 (.error ()) =
      (⟨false, [], some "Unable to load departments. Please try again later."⟩, emptyStore) :=
  (fetchDepartments_error_spec emptyStore 0 ⟨[], 0⟩).1 rfl

/-- Claim C2: the filtering step of Dashboard.handleSearch returns a sublist of
its input (a subset in the original relative order; the function is pure, so
the input list is not mutated), and a record survives exactly when it belongs
to the input and the normalized query is a substring of its lowercased name,
description, or id. -/
theorem searchFilter_subset_order_spec (D : List DepartmentRecord) (q : String) :
    List.Sublist (searchFilter D q) D ∧
    ∀ r, r ∈ searchFilter D q ↔ r ∈ D ∧ surviveB q r = true := by
  rw [searchFilter_eq_filter]
  exact ⟨List.filter_sublist D, fun r => List.mem_filter⟩

/-- Claim C3: filtering with a query that is empty after trimming (in
particular the empty string) returns the input list unchanged, in the same
order. -/
theorem searchFilter_empty_query_spec (D : List DepartmentRecord) (q : String)
    (h : jsTrim q = "") : searchFilter D q = D := by
  have h0 : trimList q.data = [] := String.ext_iff.mp h
  have hws : ∀ c ∈ q.data, c.isWhitespace = true := trimList_nil_ws q.data h0
  have hlow : trimList (jsToLower q).data = [] := by
    apply all_ws_trimList
    intro c hc
    rcases List.mem_map.mp hc with ⟨c0, hc0, rfl⟩
    have hw := hws c0 hc0
    rw [ws_toLower c0 hw]
    exact hw
  have hq : jsTrim (jsToLower q) = "" := String.ext_iff.mpr hlow
  simp only [searchFilter, hq, if_pos]

/-- Witness for C3: the empty query leaves the mock department list intact. -/
theorem searchFilter_empty_query_spec_witness :
    searchFilter MOCK_DEPARTMENTS "" = MOCK_DEPARTMENTS :=
  searchFilter_empty_query_spec MOCK_DEPARTMENTS "" rfl

/-- Counterexample for C4: on the password value "12345 " (raw length 6) the
claimed rules, which check the raw password, give valid, but
LoginManager.validateField trims first and reports the too-short error. -/
theorem validateField_claim_counterexample :
    validateField .password "12345 " = ⟨false, "Password must be at least 6 characters"⟩ ∧
    validateFieldClaim .password "12345 " = ⟨true, ""⟩ ∧
    validateField .password "12345 " ≠ validateFieldClaim .password "12345 " := by
  decide

/-- Claim C4 as amended: every field value, the password included, is trimmed
before the checks; a text value is invalid-required if empty after trim and
invalid-too-short if its trimmed length is below 3; a password value is
invalid-required if empty after trim and invalid-too-short if its trimmed
length is below 6; a selection value is invalid-required if empty after trim;
in every other case the field is valid. -/
theorem validateField_rules_spec (v : String) :
    (jsTrim v = "" → validateField .text v = ⟨false, "Username is required"⟩) ∧
    (jsTrim v ≠ "" → (jsTrim v).length < 3 →
      validateField .text v = ⟨false, "Username must be at least 3 characters"⟩) ∧
    (3 ≤ (jsTrim v).length → validateField .text v = ⟨true, ""⟩) ∧
    (jsTrim v = "" → validateField .password v = ⟨false, "Password is required"⟩) ∧
    (jsTrim v ≠ "" → (jsTrim v).length < 6 →
      validateField .password v = ⟨false, "Password must be at least 6 characters"⟩) ∧
    (6 ≤ (jsTrim v).length → validateField .password v = ⟨true, ""⟩) ∧
    (jsTrim v = "" → validateField .selectOne v = ⟨false, "Please select a department"⟩) ∧
    (jsTrim v ≠ "" → validateField .selectOne v = ⟨true, ""⟩) := by
  have hne : ∀ n, n ≤ (jsTrim v).length → 0 < n → jsTrim v ≠ "" := by
    intro n hn hpos he
    rw [he] at hn
    have h0 : ("" : String).length = 0 := rfl
    omega
  simp only [validateField]
  refine ⟨?_, ?_, ?_, ?_, ?_, ?_, ?_, ?_⟩
  · intro h; rw [if_pos h]
  · intro h hlen; rw [if_neg h, if_pos hlen]
  · intro hlen
    rw [if_neg (hne 3 hlen (by omega)), if_neg (by omega)]
  · intro h; rw [if_pos h]
  · intro h hlen; rw [if_neg h, if_pos hlen]
  · intro hlen
    rw [if_neg (hne 6 hlen (by omega)), if_neg (by omega)]
  · intro h; rw [if_pos h]
  · intro h; rw [if_neg h]

/-- Witness for C4: the spec examples, obtained from the amended rules:
"123456" is a valid password and "12345" is too short. -/
theorem validateField_rules_spec_witness :
    validateField .password "123456" = ⟨true, ""⟩ ∧
    validateField .password "12345" = ⟨false, "Password must be at least 6 characters"⟩ :=
  ⟨(validateField_rules_spec "123456").2.2.2.2.2.1 (by decide),
   (validateField_rules_spec "12345").2.2.2.2.1 (by decide) (by decide)⟩

/-- Success path of loginUser in closed form: when the defensive checks pass,
the result is the synthesized SessionUser together with the store holding the
new session and, only under rememberMe, the new RememberedLogin entry. -/
theorem loginUser_success_eq (creds : Credentials) (st : Store) (now : Int)
    (h1 : 3 ≤ creds.username.length) (h2 : 6 ≤ creds.password.length)
    (h3 : creds.department ≠ "") :
    loginUser creds st now =
      (⟨true, some (mkSessionUser creds now),
        some "Login successful! Redirecting to dashboard...", none⟩,
       ⟨st.departments, some (mkSessionUser creds now),
        if creds.rememberMe then some ⟨creds.username, creds.department⟩
        else st.remember⟩) := by
  have hu : creds.username ≠ "" := by
    intro h
    rw [h] at h1
    exact absurd h1 (by decide)
  have hp : creds.password ≠ "" := by
    intro h
    rw [h] at h2
    exact absurd h2 (by decide)
  have hc : ¬(creds.username = "" ∨ creds.password = "" ∨ creds.department = "") := by
    push_neg
    exact ⟨hu, hp, h3⟩
  rw [loginUser, if_neg hc, if_neg (by omega), if_neg (by omega)]

/-- Claim C5: with username length at least 3, password length at least 6 and a
non-empty department, loginUser succeeds with a SessionUser whose department is
the input department and whose email is the username followed by
"@megaproject.com", and the session is written to the store unconditionally. -/
theorem loginUser_success_spec (creds : Credentials) (st : Store) (now : Int)
    (h1 : 3 ≤ creds.username.length) (h2 : 6 ≤ creds.password.length)
    (h3 : creds.department ≠ "") :
    ∃ u, (loginUser creds st now).1 =
        ⟨true, some u, some "Login successful! Redirecting to dashboard...", none⟩ ∧
      u.department = creds.department ∧
      u.email = creds.username ++ "@megaproject.com" ∧
      (loginUser creds st now).2.session = some u := by
  rw [loginUser_success_eq creds st now h1 h2 h3]
  exact ⟨mkSessionUser creds now, rfl, rfl, rfl, rfl⟩

/-- Witness for C5: the spec example alice/abcdef/hr resolves to a SessionUser
with department "hr" and email "alice@megaproject.com". -/
theorem loginUser_success_spec_witness :
    ∃ u, (loginUser ⟨"alice", "abcdef", "hr", false⟩ emptyStore 0).1 =
        ⟨true, some u, some "Login successful! Redirecting to dashboard...", none⟩ ∧
      u.department = "hr" ∧
      u.email = "alice@megaproject.com" ∧
      (loginUser ⟨"alice", "abcdef", "hr", false⟩ emptyStore 0).2.session = some u :=
  loginUser_success_spec ⟨"alice", "abcdef", "hr", false⟩ emptyStore 0
    (by decide) (by decide) (by decide)

/-- Claim C6: on the success path, with remember-me true the remembered-login
entry holds exactly the username and department of the credentials; with
remember-me false the remembered-login entry of the store is left untouched. -/
theorem loginUser_remember_spec (creds : Credentials) (st : Store) (now : Int)
    (h1 : 3 ≤ creds.username.length) (h2 : 6 ≤ creds.password.length)
    (h3 : creds.department ≠ "") :
    (creds.rememberMe = true →
      (loginUser creds st now).2.remember = some ⟨creds.username, creds.department⟩) ∧
    (creds.rememberMe = false →
      (loginUser creds st now).2.remember = st.remember) := by
  rw [loginUser_success_eq creds st now h1 h2 h3]
  constructor
  · intro h
    simp only [h]
    rfl
  · intro h
    simp only [h]
    rfl

/-- Witness for C6: a remember-me login stores alice/hr, and a login without
remember-me leaves a pre-existing bob/it entry untouched. -/
theorem loginUser_remember_spec_witness :
    (loginUser ⟨"alice", "abcdef", "hr", true⟩ emptyStore 0).2.remember =
      some ⟨"alice", "hr"⟩ ∧
    (loginUser ⟨"alice", "abcdef", "hr", false⟩ ⟨none, none, some ⟨"bob", "it"⟩⟩ 0).2.remember =
      some ⟨"bob", "it"⟩ :=
  ⟨(loginUser_remember_spec ⟨"alice", "abcdef", "hr", true⟩ emptyStore 0
      (by decide) (by decide) (by decide)).1 rfl,
   (loginUser_remember_spec ⟨"alice", "abcdef", "hr", false⟩
      ⟨none, none, some ⟨"bob", "it"⟩⟩ 0
      (by decide) (by decide) (by decide)).2 rfl⟩

/-- Claim C7: with a non-empty username shorter than 3 characters, loginUser
returns a failure with null data and leaves the store untouched (no session
and no remembered-login write); when the other two fields are non-empty, so
that the required-fields check passes first, the error is the
username-too-short message. -/
theorem loginUser_short_username_spec (creds : Credentials) (st : Store) (now : Int)
    (h1 : creds.username ≠ "") (h2 : creds.username.length < 3) :
    (loginUser creds st now).1.success = false ∧
    (loginUser creds st now).1.data = none ∧
    (loginUser creds st now).2 = st ∧
    (creds.password ≠ "" → creds.department ≠ "" →
      (loginUser creds st now).1 =
        ⟨false, none, none, some "Username must be at least 3 characters"⟩) := by
  by_cases hc : creds.username = "" ∨ creds.password = "" ∨ creds.department = ""
  · rw [loginUser, if_pos hc]
    refine ⟨rfl, rfl, rfl, ?_⟩
    intro hp hd
    rcases hc with h | h | h
    · exact absurd h h1
    · exact absurd h hp
    · exact absurd h hd
  · rw [loginUser, if_neg hc, if_pos h2]
    exact ⟨rfl, rfl, rfl, fun _ _ => rfl⟩

/-- Witness for C7: the spec example ab/abcdef/hr is rejected with the
username-too-short message and the store is unchanged. -/
theorem loginUser_short_username_spec_witness :
    (loginUser ⟨"ab", "abcdef", "hr", false⟩ emptyStore 0).1 =
      ⟨false, none, none, some "Username must be at least 3 characters"⟩ ∧
    (loginUser ⟨"ab", "abcdef", "hr", false⟩ emptyStore 0).2 = emptyStore :=
  ⟨(loginUser_short_username_spec ⟨"ab", "abcdef", "hr", false⟩ emptyStore 0
      (by decide) (by decide)).2.2.2 (by decide) (by decide),
   (loginUser_short_username_spec ⟨"ab", "abcdef", "hr", false⟩ emptyStore 0
      (by decide) (by decide)).2.2.1⟩

/-- Counterexample for C9: loginUser accepts the department "no-such-dept",
which matches no MOCK_DEPARTMENTS id, and returns a success result. -/
theorem loginUser_department_counterexample :
    (loginUser ⟨"alice", "abcdef", "no-such-dept", false⟩ emptyStore 0).1.success = true ∧
    "no-such-dept" ∉ MOCK_DEPARTMENTS.map DepartmentRecord.id := by
  decide

/-- Claim C9 as amended: loginUser performs no check of the department against
the department directory; any non-empty department string is accepted when the
username and password checks pass, even one matching no known DepartmentRecord
id (the directory constraint is enforced only by the login page populating its
select element from the directory). -/
theorem loginUser_department_spec (creds : Credentials) (st : Store) (now : Int)
    (h1 : 3 ≤ creds.username.length) (h2 : 6 ≤ creds.password.length)
    (h3 : creds.department ≠ "")
    (h4 : creds.department ∉ MOCK_DEPARTMENTS.map DepartmentRecord.id) :
    (loginUser creds st now).1.success = true ∧
    (loginUser creds st now).1.error = none := by
  rw [loginUser_success_eq creds st now h1 h2 h3]
  exact ⟨rfl, rfl⟩

/-- Witness for C9: the unknown department "no-such-dept" is accepted. -/
theorem loginUser_department_spec_witness :
    (loginUser ⟨"alice", "abcdef", "no-such-dept", false⟩ emptyStore 0).1.success = true ∧
    (loginUser ⟨"alice", "abcdef", "no-such-dept", false⟩ emptyStore 0).1.error = none :=
  loginUser_department_spec ⟨"alice", "abcdef", "no-such-dept", false⟩ emptyStore 0
    (by decide) (by decide) (by decide) (by decide)

/-- Claim C10: loginUser checks the raw, untrimmed password length, so an
all-whitespace password of length at least 6 logs in successfully, while
LoginManager.validateField trims it first and reports the required-field
error for the very same value. -/
theorem loginUser_raw_password_spec (creds : Credentials) (st : Store) (now : Int)
    (h1 : 3 ≤ creds.username.length) (h2 : 6 ≤ creds.password.length)
    (h3 : creds.department ≠ "")
    (hws : ∀ c ∈ creds.password.data, c.isWhitespace = true) :
    (loginUser creds st now).1.success = true ∧
    validateField .password creds.password = ⟨false, "Password is required"⟩ := by
  constructor
  · rw [loginUser_success_eq creds st now h1 h2 h3]
  · have ht : jsTrim creds.password = "" :=
      String.ext_iff.mpr (all_ws_trimList _ hws)
    simp only [validateField]
    rw [if_pos ht]

/-- Witness for C10: a password of six spaces logs in while validateField
rejects it as required. -/
theorem loginUser_raw_password_spec_witness :
    (loginUser ⟨"bob", "      ", "hr", false⟩ emptyStore 0).1.success = true ∧
    validateField .password "      " = ⟨false, "Password is required"⟩ :=
  loginUser_raw_password_spec ⟨"bob", "      ", "hr", false⟩ emptyStore 0
    (by decide) (by decide) (by decide) (by decide)
